import Mathlib

/-!
Verification of the rollback controller (`main.go`).

The program lists all Kubernetes deployments in a namespace, classifies each
one as failed or not (`deploymentFailed`), and for every failed deployment
whose `Spec.RollbackTo` is still unset it writes a rollback request
(`Spec.RollbackTo = {Revision: 0}`) back through the API, logging one summary
line per pass and one line per issued rollback.

Shallow embedding notes.  A deployment record is modelled at the granularity
of the spec's data model (section 3): the `Status.Conditions` list and the
`Spec.RollbackTo` field are carried directly on the record, since the Go code
accesses `d.Status` and `d.Spec` unconditionally on every listed item (lines
25, 63, 73) and API responses always populate those containers.  `Metadata`
and its `Name` are modelled as optional, mirroring the generated Go struct's
nullable pointers, because line 79 dereferences `*d.Metadata.Name` without a
guard — that dereference of an absent value is modelled by the `panicked`
pass result.  All other spec and status fields of a deployment are never read
or written by the program and are collapsed into the opaque `restSpec` and
`restStatus` fields.  The API client is modelled by its two capabilities:
the result of `ListDeployments` and a function giving the result of each
`UpdateDeployment` call.  Log output is modelled as the ordered stream of
emitted lines (`LogLine`).
-/

/-- One entry of `Deployment.Status.Conditions`.  Each field is a nullable
string pointer in the Go struct. -/
structure Condition where
  type : Option String
  status : Option String
  reason : Option String
deriving DecidableEq

/-- `Spec.RollbackTo`: the rollback request; `revision` is a nullable int64
pointer in the Go struct. -/
structure RollbackConfig where
  revision : Option Int
deriving DecidableEq

/-- The part of `Metadata` the program touches: `Name` and `Namespace`,
both nullable string pointers. -/
structure ObjectMeta where
  name : Option String
  nspace : Option String
deriving DecidableEq

/-- One workload record as the program sees it.  `metadata` is a nullable
pointer in the Go struct; `conditions` stands for `Status.Conditions`;
`rollbackTo` stands for `Spec.RollbackTo`; `restSpec` and `restStatus` are
opaque stand-ins for every other spec/status field, which the program never
reads or writes. -/
structure Deployment where
  metadata : Option ObjectMeta
  conditions : List Condition
  rollbackTo : Option RollbackConfig
  restSpec : Nat
  restStatus : Nat
deriving DecidableEq

/-- `deploymentFailed` (main.go lines 21-35): true iff some condition has
type "Progressing", status "False" and reason "ProgressDeadlineExceeded",
where a nil field never matches (the local `eq` helper). -/
def deploymentFailed (d : Deployment) : Bool :=
  d.conditions.any fun c =>
    eq c.type "Progressing" && eq c.status "False" &&
      eq c.reason "ProgressDeadlineExceeded"
where
  /-- The local `eq` closure: `s != nil && *s == to`. -/
  eq (s : Option String) (t : String) : Bool :=
    match s with
    | some v => v == t
    | none => false

/-- The log stream: one summary line per pass
(`deployments=%d, failed=%d, rolled back=%d`, line 68) and one line per
issued rollback (`rolled back deployment: %s`, line 79). -/
inductive LogLine where
  | summary (total failed rolledBack : Nat)
  | rolledBack (name : String)
deriving DecidableEq

/-- How a pass ends: `run` returns nil (`ok`) or an error; `panicked` models
the nil-pointer dereference of `*d.Metadata.Name` at line 79. -/
inductive PassResult where
  | ok
  | listError (msg : String)
  | updateError (msg : String)
  | panicked
deriving DecidableEq

/-- Everything observable about one pass: the records submitted to
`UpdateDeployment` in call order, the emitted log lines in order, and how
the pass ended. -/
structure PassOutcome where
  attempts : List Deployment
  logs : List LogLine
  result : PassResult
deriving DecidableEq

/-- The mutation at lines 72-75: set `Spec.RollbackTo` to
`{Revision: &0}`, leaving every other field unchanged. -/
def setRollback (d : Deployment) : Deployment :=
  { d with rollbackTo := some { revision := some 0 } }

/-- `*d.Metadata.Name` as a partial read: `none` when either pointer is
nil (in which case line 79 panics). -/
def metaName (d : Deployment) : Option String :=
  d.metadata.bind ObjectMeta.name

/-- The classification loop of `run` (lines 53-66): returns the
`toUpdate` list (failed records with no rollback request, in listing
order) and the `failed` count. -/
def planPass : List Deployment → List Deployment × Nat
  | [] => ([], 0)
  | d :: rest =>
    let r := planPass rest
    if deploymentFailed d then
      if d.rollbackTo.isNone then (d :: r.1, r.2 + 1) else (r.1, r.2 + 1)
    else r

/-- The dispatch loop of `run` (lines 71-80): for each record in order,
mutate `Spec.RollbackTo`, call `UpdateDeployment` (the `upd` capability),
return on the first error, otherwise log `rolled back deployment: <name>`
— dereferencing the possibly-nil name — and continue.  Returns the records
submitted to the API, the per-rollback log lines' names, and the outcome. -/
def dispatchLoop (upd : Deployment → Except String Deployment) :
    List Deployment → List Deployment × List String × PassResult
  | [] => ([], [], .ok)
  | d :: rest =>
    match upd (setRollback d) with
    | .error e =>
      ([setRollback d], [], .updateError ("update deployment: " ++ e))
    | .ok _ =>
      match metaName (setRollback d) with
      | none => ([setRollback d], [], .panicked)
      | some n =>
        let r := dispatchLoop upd rest
        (setRollback d :: r.1, n :: r.2.1, r.2.2)

/-- `rollbackController.run` (lines 47-82) over the modelled client:
`listResult` is what `ListDeployments` returned, `upd` is what
`UpdateDeployment` returns for each submitted record.  On a list error the
pass aborts immediately (line 50); otherwise it plans, logs the summary
(line 68: total, failed, failed minus pending rollbacks), then dispatches. -/
def run (listResult : Except String (List Deployment))
    (upd : Deployment → Except String Deployment) : PassOutcome :=
  match listResult with
  | .error e => ⟨[], [], .listError ("list deployments: " ++ e)⟩
  | .ok items =>
    let p := planPass items
    let dl := dispatchLoop upd p.1
    ⟨dl.1,
      LogLine.summary items.length p.2 (p.2 - p.1.length)
        :: dl.2.1.map LogLine.rolledBack,
      dl.2.2⟩

/-! Concrete records used as witnesses, mirroring the example scenario of
spec section 8: `recA` is healthy, `recB` is failed with no rollback request,
`recC` is failed with a request already pending. -/

/-- The condition the docs use to signal a stalled rollout. -/
def failCond : Condition :=
  { type := some "Progressing", status := some "False",
    reason := some "ProgressDeadlineExceeded" }

/-- A healthy `Progressing` condition. -/
def okCond : Condition :=
  { type := some "Progressing", status := some "True",
    reason := some "NewReplicaSetAvailable" }

/-- Scenario record A: no matching condition. -/
def recA : Deployment :=
  { metadata := some { name := some "A", nspace := some "default" },
    conditions := [okCond], rollbackTo := none, restSpec := 1, restStatus := 1 }

/-- Scenario record B: failed, no rollback request yet. -/
def recB : Deployment :=
  { metadata := some { name := some "B", nspace := some "default" },
    conditions := [failCond], rollbackTo := none, restSpec := 2, restStatus := 2 }

/-- Scenario record C: failed, rollback request already pending. -/
def recC : Deployment :=
  { metadata := some { name := some "C", nspace := some "default" },
    conditions := [failCond], rollbackTo := some { revision := some 3 },
    restSpec := 3, restStatus := 3 }

/-- A failed record whose `Metadata` pointer is nil. -/
def recNoMeta : Deployment :=
  { metadata := none, conditions := [failCond], rollbackTo := none,
    restSpec := 0, restStatus := 0 }

/-- Three failed records with no pending request, for the fail-fast scenario. -/
def recD1 : Deployment :=
  { metadata := some { name := some "D1", nspace := some "default" },
    conditions := [failCond], rollbackTo := none, restSpec := 1, restStatus := 0 }

/-- Second record of the fail-fast scenario; its update will be rejected. -/
def recD2 : Deployment :=
  { metadata := some { name := some "D2", nspace := some "default" },
    conditions := [failCond], rollbackTo := none, restSpec := 2, restStatus := 0 }

/-- Third record of the fail-fast scenario. -/
def recD3 : Deployment :=
  { metadata := some { name := some "D3", nspace := some "default" },
    conditions := [failCond], rollbackTo := none, restSpec := 3, restStatus := 0 }

/-- A Directory that accepts every update. -/
def updOk : Deployment → Except String Deployment := fun d => .ok d

/-- A Directory that rejects the update of any record with `restSpec = 2`
(records `recB` and `recD2`) and accepts the rest. -/
def updFail2 : Deployment → Except String Deployment := fun d =>
  if d.restSpec = 2 then .error "boom" else .ok d

/-! Helper lemmas about the embedded definitions. -/

/-- The `eq` helper matches exactly a present field with the given value. -/
theorem deploymentFailed_eq_iff (s : Option String) (t : String) :
    deploymentFailed.eq s t = true ↔ s = some t := by
  cases s <;> simp [deploymentFailed.eq]

/-- `setRollback` leaves the metadata name unchanged. -/
theorem metaName_setRollback (d : Deployment) :
    metaName (setRollback d) = metaName d := rfl

/-- The classification loop computes the filter of records needing rollback
and the count of failed records. -/
theorem planPass_eq (items : List Deployment) :
    planPass items =
      (items.filter fun d => deploymentFailed d && d.rollbackTo.isNone,
       items.countP fun d => deploymentFailed d) := by
  induction items with
  | nil => rfl
  | cons d rest ih =>
    simp only [planPass, ih, List.filter_cons, List.countP_cons]
    cases hf : deploymentFailed d <;> cases hn : d.rollbackTo.isNone <;>
      simp [hf, hn]

/-- The dispatch loop processes some leading segment of its input, and the
submitted records are exactly that segment with the rollback request set. -/
theorem dispatchLoop_attempts (upd : Deployment → Except String Deployment)
    (l : List Deployment) :
    ∃ pre post, l = pre ++ post ∧
      (dispatchLoop upd l).1 = pre.map setRollback := by
  induction l with
  | nil => exact ⟨[], [], rfl, rfl⟩
  | cons d rest ih =>
    cases hu : upd (setRollback d) with
    | error e => exact ⟨[d], rest, rfl, by simp [dispatchLoop, hu]⟩
    | ok x =>
      cases hm : metaName (setRollback d) with
      | none => exact ⟨[d], rest, rfl, by simp [dispatchLoop, hu, hm]⟩
      | some n =>
        obtain ⟨pre, post, hl, ha⟩ := ih
        exact ⟨d :: pre, post, by rw [List.cons_append, hl],
          by simp [dispatchLoop, hu, hm, ha]⟩

/-- Every record submitted by the dispatch loop is some input record with
the rollback request set. -/
theorem dispatchLoop_mem (upd : Deployment → Except String Deployment)
    (l : List Deployment) (a : Deployment)
    (ha : a ∈ (dispatchLoop upd l).1) : ∃ d ∈ l, a = setRollback d := by
  obtain ⟨pre, post, hl, hatt⟩ := dispatchLoop_attempts upd l
  rw [hatt] at ha
  obtain ⟨d, hd, rfl⟩ := List.mem_map.mp ha
  exact ⟨d, by rw [hl]; exact List.mem_append_left _ hd, rfl⟩

/-- If the dispatch loop finishes without error, every input record was
submitted, in order. -/
theorem dispatchLoop_ok (upd : Deployment → Except String Deployment)
    (l : List Deployment) (h : (dispatchLoop upd l).2.2 = PassResult.ok) :
    (dispatchLoop upd l).1 = l.map setRollback := by
  induction l with
  | nil => rfl
  | cons d rest ih =>
    cases hu : upd (setRollback d) with
    | error e => simp [dispatchLoop, hu] at h
    | ok x =>
      cases hm : metaName (setRollback d) with
      | none => simp [dispatchLoop, hu, hm] at h
      | some n =>
        simp only [dispatchLoop, hu, hm] at h ⊢
        simp [ih h]

/-- C1: `deploymentFailed` returns true for a record iff some condition has
type "Progressing", status "False" and reason "ProgressDeadlineExceeded";
an absent field never matches, so a record with no fully matching condition
yields false. -/
theorem deploymentFailed_iff (d : Deployment) :
    deploymentFailed d = true ↔
      ∃ c ∈ d.conditions, c.type = some "Progressing" ∧
        c.status = some "False" ∧
        c.reason = some "ProgressDeadlineExceeded" := by
  simp [deploymentFailed, List.any_eq_true, Bool.and_eq_true,
    deploymentFailed_eq_iff, and_assoc]

/-- C1 witness: the scenario record `recB` carries the matching condition
and is classified as failed. -/
theorem deploymentFailed_iff_witness : deploymentFailed recB = true :=
  (deploymentFailed_iff recB).mpr ⟨failCond, by decide, by decide⟩

/-- C2: the planner ignores non-failed records, selects exactly the failed
records with no pending rollback request (in listing order, as a sublist of
the input), and counts every failed record. -/
theorem plan_partition (items : List Deployment) :
    (∀ d, d ∈ (planPass items).1 ↔
        d ∈ items ∧ deploymentFailed d = true ∧ d.rollbackTo = none) ∧
      (planPass items).2 = (items.countP fun d => deploymentFailed d) ∧
      (planPass items).1.Sublist items := by
  rw [planPass_eq]
  refine ⟨fun d => ?_, rfl, List.filter_sublist items⟩
  simp [List.mem_filter, Bool.and_eq_true, Option.isNone_iff_eq_none,
    and_assoc]

/-- C2 witness: in the scenario listing, `recB` is planned for rollback and
two records are counted as failed. -/
theorem plan_partition_witness :
    recB ∈ (planPass [recA, recB, recC]).1 ∧
      (planPass [recA, recB, recC]).2 = 2 :=
  ⟨((plan_partition [recA, recB, recC]).1 recB).mpr
      ⟨by decide, by decide, by decide⟩,
    ((plan_partition [recA, recB, recC]).2.1).trans (by decide)⟩

/-- C7: on a list error the pass aborts immediately: no log line is emitted
(in particular no summary), no update is attempted, and the pass returns the
list error. -/
theorem list_error_aborts (e : String)
    (upd : Deployment → Except String Deployment) :
    run (.error e) upd =
      ⟨[], [], PassResult.listError ("list deployments: " ++ e)⟩ := rfl

/-- On records with no pending request, `setRollback` is injective. -/
theorem setRollback_inj {x y : Deployment} (hx : x.rollbackTo = none)
    (hy : y.rollbackTo = none) : setRollback x = setRollback y ↔ x = y := by
  constructor
  · intro h
    cases x
    cases y
    simp only [setRollback] at h
    simp_all [Deployment.mk.injEq]
  · intro h
    rw [h]

/-- Counting occurrences through `setRollback` over a list of records with
no pending request. -/
theorem count_map_setRollback (d : Deployment) (l : List Deployment)
    (hl : ∀ x ∈ l, x.rollbackTo = none) (hd : d.rollbackTo = none) :
    (l.map setRollback).count (setRollback d) = l.count d := by
  induction l with
  | nil => rfl
  | cons x rest ih =>
    have hx := hl x (List.mem_cons_self x rest)
    have hrest := fun y hy => hl y (List.mem_cons_of_mem x hy)
    simp only [List.map_cons, List.count_cons, ih hrest]
    simp [beq_iff_eq, setRollback_inj hx hd]

/-- C3: for every failed record with no pending rollback request that occurs
once in the listing, a successful pass submits exactly one update for it,
and the submitted record's rollback request has target revision 0. -/
theorem rollback_target_zero_once (items : List Deployment)
    (upd : Deployment → Except String Deployment) (d : Deployment)
    (hf : deploymentFailed d = true) (hn : d.rollbackTo = none)
    (hc : items.count d = 1)
    (hok : (run (.ok items) upd).result = PassResult.ok) :
    (run (.ok items) upd).attempts.count (setRollback d) = 1 ∧
      (setRollback d).rollbackTo = some { revision := some 0 } := by
  refine ⟨?_, rfl⟩
  have hres : (dispatchLoop upd (planPass items).1).2.2 = PassResult.ok := hok
  have hatt : (run (.ok items) upd).attempts =
      ((planPass items).1).map setRollback := dispatchLoop_ok upd _ hres
  rw [hatt]
  have hmem : ∀ x ∈ (planPass items).1, x.rollbackTo = none := by
    intro x hx
    rw [planPass_eq] at hx
    have h2 := (List.mem_filter.mp hx).2
    rw [Bool.and_eq_true] at h2
    exact Option.isNone_iff_eq_none.mp h2.2
  rw [count_map_setRollback d _ hmem hn, planPass_eq]
  rw [List.count_filter (by simp [hf, hn]), hc]

/-- C3 witness: a pass over the single failed record `recB` against an
accepting Directory updates it exactly once with target revision 0. -/
theorem rollback_target_zero_once_witness :
    (run (.ok [recB]) updOk).attempts.count (setRollback recB) = 1 ∧
      (setRollback recB).rollbackTo = some { revision := some 0 } :=
  rollback_target_zero_once [recB] updOk recB (by decide) (by decide)
    (by decide) (by decide)

/-- C4: a record whose rollback request is already present in the listed
snapshot is never planned for rollback, and every record submitted to
Update during the pass originates from a listed failed record with no
pending request — an existing rollback request is never overwritten. -/
theorem no_overwrite (items : List Deployment)
    (upd : Deployment → Except String Deployment) :
    (∀ d, d.rollbackTo.isSome → d ∉ (planPass items).1) ∧
      ∀ a ∈ (run (.ok items) upd).attempts,
        ∃ d, d ∈ items ∧ deploymentFailed d = true ∧ d.rollbackTo = none ∧
          a = setRollback d := by
  constructor
  · intro d hd hmem
    rw [planPass_eq] at hmem
    have h2 := (List.mem_filter.mp hmem).2
    rw [Bool.and_eq_true] at h2
    rw [Option.isNone_iff_eq_none.mp h2.2] at hd
    simp at hd
  · intro a ha
    obtain ⟨d, hd, rfl⟩ := dispatchLoop_mem upd (planPass items).1 a ha
    rw [planPass_eq] at hd
    obtain ⟨hmem, hp⟩ := List.mem_filter.mp hd
    rw [Bool.and_eq_true] at hp
    exact ⟨d, hmem, hp.1, Option.isNone_iff_eq_none.mp hp.2, rfl⟩

/-- C4 witness: scenario record `recC`, failed with a pending request, is
excluded from the plan. -/
theorem no_overwrite_witness : recC ∉ (planPass [recA, recB, recC]).1 :=
  (no_overwrite [recA, recB, recC] updOk).1 recC (by decide)

/-- C10: every record submitted to Update during a pass comes from a planned
record and differs from it only in the rollback request field, which is set
to target revision 0; metadata (name and namespace), conditions and all
other spec and status fields are submitted unchanged, and records outside
the plan are never written. -/
theorem frame_property (items : List Deployment)
    (upd : Deployment → Except String Deployment) :
    ∀ a ∈ (run (.ok items) upd).attempts,
      ∃ d ∈ (planPass items).1,
        a.metadata = d.metadata ∧ a.conditions = d.conditions ∧
        a.restSpec = d.restSpec ∧ a.restStatus = d.restStatus ∧
        a.rollbackTo = some { revision := some 0 } := by
  intro a ha
  obtain ⟨d, hd, rfl⟩ := dispatchLoop_mem upd (planPass items).1 a ha
  exact ⟨d, hd, rfl, rfl, rfl, rfl, rfl⟩

/-- C10 witness: the one update of the scenario pass originates from the
planned record `recB`, all fields but the rollback request unchanged. -/
theorem frame_property_witness :
    ∃ d ∈ (planPass [recA, recB, recC]).1,
      (setRollback recB).metadata = d.metadata ∧
      (setRollback recB).conditions = d.conditions ∧
      (setRollback recB).restSpec = d.restSpec ∧
      (setRollback recB).restStatus = d.restStatus ∧
      (setRollback recB).rollbackTo = some { revision := some 0 } :=
  frame_property [recA, recB, recC] updOk (setRollback recB) (by decide)

/-- C8: a record whose listed snapshot already carries the rollback request
written by a previous successful pass is not planned again, and the next
pass dispatches zero updates for it: the records actually dispatched are a
leading segment of the plan, in which it occurs zero times. -/
theorem second_pass_idempotent (items : List Deployment)
    (upd : Deployment → Except String Deployment) (r : Deployment)
    (h : r.rollbackTo = some { revision := some 0 }) :
    r ∉ (planPass items).1 ∧
      ∃ pre post, (planPass items).1 = pre ++ post ∧
        (run (.ok items) upd).attempts = pre.map setRollback ∧
        pre.count r = 0 := by
  have hnot : r ∉ (planPass items).1 := by
    rw [planPass_eq]
    intro hmem
    have h2 := (List.mem_filter.mp hmem).2
    rw [Bool.and_eq_true] at h2
    rw [h] at h2
    simp at h2
  refine ⟨hnot, ?_⟩
  obtain ⟨pre, post, hl, hatt⟩ := dispatchLoop_attempts upd (planPass items).1
  refine ⟨pre, post, hl, hatt, ?_⟩
  rw [List.count_eq_zero]
  intro hr
  exact hnot (hl ▸ List.mem_append_left post hr)

/-- C8 witness: after the scenario pass rolled back `recB`, a second listing
carrying the written request no longer plans it. -/
theorem second_pass_idempotent_witness :
    setRollback recB ∉ (planPass [recA, setRollback recB, recC]).1 :=
  (second_pass_idempotent [recA, setRollback recB, recC] updOk
    (setRollback recB) (by decide)).1

/-- C5: dispatches run sequentially in listing order and the first Update
error aborts the rest of the pass: with three records needing rollback where
the second update is rejected, the first and second records are the only
ones submitted (so the first is updated and stands, the second is rejected,
the third is never attempted) and the pass returns the update error. -/
theorem fail_fast (d1 d2 d3 : Deployment)
    (upd : Deployment → Except String Deployment)
    (x1 : Deployment) (n1 : String) (e : String)
    (hf1 : deploymentFailed d1 = true) (hn1 : d1.rollbackTo = none)
    (hf2 : deploymentFailed d2 = true) (hn2 : d2.rollbackTo = none)
    (hf3 : deploymentFailed d3 = true) (hn3 : d3.rollbackTo = none)
    (hm1 : metaName d1 = some n1)
    (hu1 : upd (setRollback d1) = Except.ok x1)
    (hu2 : upd (setRollback d2) = Except.error e) :
    (run (.ok [d1, d2, d3]) upd).attempts =
        [setRollback d1, setRollback d2] ∧
      (run (.ok [d1, d2, d3]) upd).result =
        PassResult.updateError ("update deployment: " ++ e) := by
  have hplan : (planPass [d1, d2, d3]).1 = [d1, d2, d3] := by
    simp [planPass, hf1, hf2, hf3, hn1, hn2, hn3]
  have hd : dispatchLoop upd (planPass [d1, d2, d3]).1 =
      ([setRollback d1, setRollback d2], [n1],
        PassResult.updateError ("update deployment: " ++ e)) := by
    rw [hplan]
    simp [dispatchLoop, hu1, hu2, metaName_setRollback, hm1]
  exact ⟨congrArg (fun t => t.1) hd, congrArg (fun t => t.2.2) hd⟩

/-- C5 witness: three concrete failed records against a Directory rejecting
exactly the second record's update. -/
theorem fail_fast_witness :
    (run (.ok [recD1, recD2, recD3]) updFail2).attempts =
        [setRollback recD1, setRollback recD2] ∧
      (run (.ok [recD1, recD2, recD3]) updFail2).result =
        PassResult.updateError ("update deployment: " ++ "boom") :=
  fail_fast recD1 recD2 recD3 updFail2 (setRollback recD1) "D1" "boom"
    (by decide) (by decide) (by decide) (by decide) (by decide) (by decide)
    (by decide) rfl rfl

/-- C6 counterexample: the summary line is emitted before the dispatch
step, not after it as step (4) of the claimed order.  In the scenario
listing with a Directory that rejects `recB`'s update, the pass aborts
during dispatch with an update error, yet the summary line has already been
emitted (it is the entire log stream) — under the claimed order
(dispatch (3) before summary (4), with the first error aborting the pass)
no summary could appear, and on a fully successful scenario pass the
per-rollback line would have to precede the summary, while the code's log
stream starts with the summary. -/
theorem summary_before_dispatch_cex :
    run (.ok [recA, recB, recC]) updFail2 =
      ⟨[setRollback recB], [LogLine.summary 3 2 1],
        PassResult.updateError ("update deployment: " ++ "boom")⟩ := by
  decide

/-- C6 amended: a pass lists, classifies and plans, then emits exactly one
summary observation (total records, total failed, and rolledBack computed
as failedCount minus the number of records still needing rollback), and
only then dispatches sequentially; in the scenario the pass reports
total=3, failed=2, rolledBack=1, only `B` is submitted to Update with
target revision 0, and `A` and `C` receive no writes. -/
theorem pass_order_and_scenario :
    (∀ items upd, ∃ names,
        (run (Except.ok items) upd).logs =
          LogLine.summary items.length (planPass items).2
              ((planPass items).2 - (planPass items).1.length)
            :: List.map LogLine.rolledBack names) ∧
      run (.ok [recA, recB, recC]) updOk =
        ⟨[setRollback recB],
          [LogLine.summary 3 2 1, LogLine.rolledBack "B"],
          PassResult.ok⟩ := by
  constructor
  · intro items upd
    exact ⟨(dispatchLoop upd (planPass items).1).2.1, rfl⟩
  · decide

/-- C9 counterexample: a failed record whose `Metadata` pointer is nil is
planned and its update is accepted, after which the per-rollback log line
dereferences the nil name and the pass panics — the process crashes on a
pass-level input instead of returning success or an error. -/
theorem nil_name_panics_cex :
    (run (.ok [recNoMeta]) updOk).result = PassResult.panicked := by decide

/-- C9 amended: classification is total and never fails (it is a total
boolean function of the record), and a pass returns success or an error —
never the panic outcome — provided every record planned for rollback has a
present metadata name; a dispatched record with an absent metadata or name
crashes at the per-rollback log line, as the counterexample shows.  A pass
whose listing fails never reaches dispatch and never panics. -/
theorem no_panic_when_named (items : List Deployment)
    (upd : Deployment → Except String Deployment)
    (h : ∀ d ∈ (planPass items).1, (metaName d).isSome) :
    (run (.ok items) upd).result ≠ PassResult.panicked ∧
      ∀ e, (run (.error e) upd).result ≠ PassResult.panicked := by
  constructor
  · show (dispatchLoop upd (planPass items).1).2.2 ≠ PassResult.panicked
    have : ∀ l, (∀ d ∈ l, (metaName d).isSome) →
        (dispatchLoop upd l).2.2 ≠ PassResult.panicked := by
      intro l
      induction l with
      | nil => intro _; simp [dispatchLoop]
      | cons d rest ih =>
        intro hl
        cases hu : upd (setRollback d) with
        | error e => simp [dispatchLoop, hu]
        | ok x =>
          have hs : (metaName (setRollback d)).isSome := by
            rw [metaName_setRollback]
            exact hl d (List.mem_cons_self d rest)
          cases hm : metaName (setRollback d) with
          | none => rw [hm] at hs; simp at hs
          | some n =>
            simp only [dispatchLoop, hu, hm]
            exact ih fun y hy => hl y (List.mem_cons_of_mem d hy)
    exact this (planPass items).1 h
  · intro e
    simp [run]

/-- C9 amended witness: the scenario pass, whose planned record `recB` has
a present name, does not panic. -/
theorem no_panic_when_named_witness :
    (run (.ok [recA, recB, recC]) updOk).result ≠ PassResult.panicked :=
  (no_panic_when_named [recA, recB, recC] updOk (by decide)).1
